import Mathlib

/-!
Shallow embedding of the lunch-menu extraction pipeline
(src/src/image_processing.py, src/src/llm_parser.py, src/src/ocr_service.py)
together with theorems settling the specification claims about it.
-/

namespace Lunch

/- ===================================================================
   Image preprocessing — src/src/image_processing.py
   =================================================================== -/

/-- PIL image modes relevant to the pipeline: tri-channel RGB and
single-channel grayscale (L). -/
inductive Mode where
  | rgb
  | l
  deriving DecidableEq, Repr

/-- One pixel, held as its three channel values (0..255 scale).  A
grayscale pixel is held with the gray value replicated across the three
channels, matching what PIL conversion from L to RGB produces. -/
structure Pixel where
  r : Nat
  g : Nat
  b : Nat
  deriving DecidableEq, Repr

/-- The replicated-channel pixel of a single gray value. -/
def gray (v : Nat) : Pixel := ⟨v, v, v⟩

/-- An in-memory decoded image: a mode tag and a row-major grid of
pixels. -/
structure Image where
  mode : Mode
  data : List (List Pixel)
  deriving DecidableEq, Repr

/-- Embeds the mode normalisation step of extract_black_pixels: the
source converts the input to RGB when it is not already RGB; the colour
content of the pixels is unchanged by that conversion. -/
def convertRGB (img : Image) : Image :=
  if img.mode = Mode.rgb then img else { mode := Mode.rgb, data := img.data }

/-- Embeds the per-pixel mask of extract_black_pixels: all three
channels strictly below the threshold. -/
def allBelow (threshold : Nat) (p : Pixel) : Bool :=
  decide (p.r < threshold) && decide (p.g < threshold) && decide (p.b < threshold)

/-- Embeds extract_black_pixels (src/src/image_processing.py lines
56-89): convert to RGB, mask the pixels whose channels are all below the
threshold, map masked pixels to 0 and the rest to 255, and return the
result as a single-channel (L-mode) image. -/
def extract_black_pixels (img : Image) (threshold : Nat) : Image :=
  let imgRgb := convertRGB img
  { mode := Mode.l
  , data := imgRgb.data.map (fun row =>
      row.map (fun p => if allBelow threshold p then gray 0 else gray 255)) }

/-- Embeds preprocess_image (src/src/image_processing.py lines 92-118):
after the file is opened (an external I/O step, outside this embedding)
the pipeline applies extract_black_pixels with the fixed threshold 40.
No other transformation and no strategy selection occurs. -/
def preprocess_image (img : Image) : Image :=
  extract_black_pixels img 40

theorem convertRGB_data (img : Image) : (convertRGB img).data = img.data := by
  unfold convertRGB
  split <;> rfl

/-- The pixel of an image at row i, column j (default gray 0 when out of
bounds; the theorems below always supply in-bounds indices). -/
def pixelAt (img : Image) (i j : Nat) : Pixel :=
  (img.data.getD i []).getD j (gray 0)

theorem extract_data (img : Image) (t : Nat) :
    (extract_black_pixels img t).data
      = img.data.map (fun row =>
          row.map (fun p => if allBelow t p then gray 0 else gray 255)) := by
  simp only [extract_black_pixels, convertRGB_data]

theorem allBelow_iff (t : Nat) (p : Pixel) :
    allBelow t p = true ↔ (p.r < t ∧ p.g < t ∧ p.b < t) := by
  simp [allBelow, and_assoc]

theorem getD_map_of_lt {α β : Type} (f : α → β) (l : List α) (n : Nat)
    (d : β) (d' : α) (h : n < l.length) :
    (l.map f).getD n d = f (l.getD n d') := by
  rw [List.getD_eq_getElem _ _ (by simpa using h), List.getElem_map,
    List.getD_eq_getElem _ _ h]

theorem pixelAt_extract (img : Image) (t i j : Nat)
    (hi : i < img.data.length) (hj : j < (img.data.getD i []).length) :
    pixelAt (extract_black_pixels img t) i j =
      if allBelow t (pixelAt img i j) then gray 0 else gray 255 := by
  unfold pixelAt
  rw [extract_data]
  rw [getD_map_of_lt _ img.data i [] [] hi]
  show ((img.data.getD i []).map
      (fun p => if allBelow t p then gray 0 else gray 255)).getD j (gray 0) = _
  rw [getD_map_of_lt _ (img.data.getD i []) j (gray 0) (gray 0) hj]

/-- C1: on the fixed-threshold path with threshold 40, an output pixel is
the dark extreme 0 exactly when all channels of the corresponding input
pixel are strictly below 40, and is the light extreme 255 otherwise. -/
theorem preprocess_pixel_classification (img : Image) (i j : Nat)
    (hi : i < img.data.length) (hj : j < (img.data.getD i []).length) :
    (pixelAt (preprocess_image img) i j = gray 0 ↔
      ((pixelAt img i j).r < 40 ∧ (pixelAt img i j).g < 40 ∧
        (pixelAt img i j).b < 40)) ∧
    (pixelAt (preprocess_image img) i j = gray 255 ↔
      ¬((pixelAt img i j).r < 40 ∧ (pixelAt img i j).g < 40 ∧
        (pixelAt img i j).b < 40)) := by
  unfold preprocess_image
  rw [pixelAt_extract img 40 i j hi hj]
  cases hb : allBelow 40 (pixelAt img i j) with
  | true =>
    have hc := (allBelow_iff 40 (pixelAt img i j)).mp hb
    exact ⟨iff_of_true (by decide) hc, iff_of_false (by decide) (not_not_intro hc)⟩
  | false =>
    have hc : ¬((pixelAt img i j).r < 40 ∧ (pixelAt img i j).g < 40 ∧
        (pixelAt img i j).b < 40) := by
      rw [← allBelow_iff, hb]
      exact Bool.false_ne_true
    exact ⟨iff_of_false (by decide) hc, iff_of_true (by decide) hc⟩

/-- A concrete 1-by-2 RGB image used to instantiate the image theorems:
the first pixel has all channels below 40, the second does not. -/
def imgSample : Image := ⟨Mode.rgb, [[⟨10, 20, 30⟩, ⟨10, 200, 30⟩]]⟩

/-- Witness for C1 at a concrete image and pixel position. -/
theorem preprocess_pixel_classification_witness :
    (pixelAt (preprocess_image imgSample) 0 0 = gray 0 ↔
      ((pixelAt imgSample 0 0).r < 40 ∧ (pixelAt imgSample 0 0).g < 40 ∧
        (pixelAt imgSample 0 0).b < 40)) ∧
    (pixelAt (preprocess_image imgSample) 0 0 = gray 255 ↔
      ¬((pixelAt imgSample 0 0).r < 40 ∧ (pixelAt imgSample 0 0).g < 40 ∧
        (pixelAt imgSample 0 0).b < 40)) :=
  preprocess_pixel_classification imgSample 0 0 (by decide) (by decide)

theorem map_eq_self_of {α : Type} (f : α → α) :
    ∀ (l : List α), (∀ x ∈ l, f x = x) → l.map f = l
  | [], _ => rfl
  | a :: l, h => by
    have ha : f a = a := h a (by simp)
    have hl : l.map f = l := map_eq_self_of f l (fun x hx => h x (by simp [hx]))
    simp [ha, hl]

/-- C2: the Preprocessor output is an L-mode image with the same number
of rows as the input, each row as long as the corresponding input row,
and every output pixel is either the dark extreme 0 or the light extreme
255. -/
theorem preprocess_output_invariant (img : Image) :
    (preprocess_image img).mode = Mode.l ∧
    (preprocess_image img).data.length = img.data.length ∧
    (∀ i, ((preprocess_image img).data.getD i []).length
      = (img.data.getD i []).length) ∧
    (∀ row ∈ (preprocess_image img).data, ∀ p ∈ row,
      p = gray 0 ∨ p = gray 255) := by
  have hdata := extract_data img 40
  refine ⟨rfl, ?_, ?_, ?_⟩
  · show (extract_black_pixels img 40).data.length = _
    rw [hdata, List.length_map]
  · intro i
    show ((extract_black_pixels img 40).data.getD i []).length = _
    rw [hdata]
    by_cases hi : i < img.data.length
    · rw [getD_map_of_lt _ img.data i [] [] hi]
      simp
    · rw [List.getD_eq_default _ _ (by simpa using Nat.le_of_not_lt hi),
        List.getD_eq_default _ _ (Nat.le_of_not_lt hi)]
  · intro row hrow p hp
    rw [show (preprocess_image img).data = (extract_black_pixels img 40).data
        from rfl, hdata] at hrow
    rcases List.mem_map.mp hrow with ⟨row₀, _, hrow₀⟩
    rw [← hrow₀] at hp
    rcases List.mem_map.mp hp with ⟨p₀, _, hp₀⟩
    rw [← hp₀]
    by_cases hb : allBelow 40 p₀ = true
    · left; simp [hb]
    · right; simp [hb]

/-- Witness for C2 has no hypotheses to discharge beyond membership; we
instantiate the pixel clause at a concrete image, row and pixel. -/
theorem preprocess_output_invariant_witness :
    (preprocess_image imgSample).mode = Mode.l ∧
    (gray 0 = gray 0 ∨ gray 0 = gray 255) := by
  have h := preprocess_output_invariant imgSample
  refine ⟨h.1, h.2.2.2 [gray 0, gray 255] ?_ (gray 0) (by simp)⟩
  show [gray 0, gray 255] ∈ (preprocess_image imgSample).data
  decide

/-- C9: an image whose pixels are all already at one of the two extremes
is reproduced exactly by the fixed-threshold path: the pixel grid is
unchanged. -/
theorem preprocess_roundtrip_binary (img : Image)
    (h : ∀ row ∈ img.data, ∀ p ∈ row, p = gray 0 ∨ p = gray 255) :
    (preprocess_image img).data = img.data := by
  show (extract_black_pixels img 40).data = img.data
  rw [extract_data]
  apply map_eq_self_of
  intro row hrow
  apply map_eq_self_of
  intro p hp
  rcases h row hrow p hp with h0 | h255
  · rw [h0]; decide
  · rw [h255]; decide

/-- A concrete already-binary image: one dark pixel and one light
pixel. -/
def imgBinary : Image := ⟨Mode.rgb, [[gray 0, gray 255]]⟩

/-- Witness for C9 at a concrete already-binary image. -/
theorem preprocess_roundtrip_binary_witness :
    (preprocess_image imgBinary).data = imgBinary.data :=
  preprocess_roundtrip_binary imgBinary (by decide)

/-- C3 context: the preprocessing pipeline applies exactly the
fixed-threshold strategy with threshold 40; no strategy parameter exists
and no histogram-based path is implemented in the module (its
threshold_otsu import is unused and the apply_binarization function its
tests call is absent). -/
theorem preprocess_image_is_fixed_threshold_only (img : Image) :
    preprocess_image img = extract_black_pixels img 40 := rfl

/- ===================================================================
   Menu structurer — src/src/llm_parser.py
   =================================================================== -/

/-- Python runtime values that can reach the structurer entry points:
strings, None, integers, booleans and lists.  Only truthiness and the
string/non-string distinction of these values matter to the code. -/
inductive PyVal where
  | pyStr (s : String)
  | pyNone
  | pyInt (n : Int)
  | pyBool (b : Bool)
  | pyListLen (n : Nat)
  deriving DecidableEq, Repr

/-- Python truthiness of the modelled values: empty string, None, zero,
False and the empty list are falsy, everything else is truthy. -/
def PyVal.truthy : PyVal → Bool
  | .pyStr s => !s.isEmpty
  | .pyNone => false
  | .pyInt n => decide (n ≠ 0)
  | .pyBool b => b
  | .pyListLen n => decide (n ≠ 0)

/-- Python isinstance check against str for the modelled values. -/
def PyVal.isStr : PyVal → Bool
  | .pyStr _ => true
  | _ => false

/-- Embeds the MenuItem pydantic model: four required string fields. -/
structure MenuItem where
  name : String
  date : String
  price : String
  type : String
  deriving DecidableEq, Repr

/-- Embeds the Menu pydantic model: a list of menu items. -/
structure Menu where
  items : List MenuItem
  deriving DecidableEq, Repr

/-- Outcome of the external instructor.from_gemini call, an opaque
collaborator: it either yields a client or raises with a message. -/
inductive ClientOutcome where
  | ok
  | raises (msg : String)
  deriving DecidableEq, Repr

/-- Outcome of the external client.chat.completions.create call, an
opaque collaborator: it raises with a message, returns a Menu instance,
or returns a value that is not a Menu instance. -/
inductive ApiOutcome where
  | returnsMenu (m : Menu)
  | returnsNonMenu
  | raises (msg : String)
  deriving DecidableEq, Repr

/-- The environment a structurer call runs in: the configured API key
string (empty when unset, matching config.py whose default is the empty
string) and the behaviour of the two external collaborators. -/
structure Env where
  GEMINI_API_KEY : String
  clientOutcome : ClientOutcome
  apiOutcome : ApiOutcome
  deriving DecidableEq, Repr

/-- External-call trace of one structurer invocation: how many times
instructor.from_gemini was invoked, how many prompts were built by
create_menu_extraction_prompt, and how many chat.completions.create
network calls were submitted. -/
structure Trace where
  fromGeminiCalls : Nat
  promptsBuilt : Nat
  apiCalls : Nat
  deriving DecidableEq, Repr

def Trace.zero : Trace := ⟨0, 0, 0⟩

def Trace.add (t u : Trace) : Trace :=
  ⟨t.fromGeminiCalls + u.fromGeminiCalls, t.promptsBuilt + u.promptsBuilt,
    t.apiCalls + u.apiCalls⟩

/-- Python exceptions raised by the structurer code: ValueError,
TypeError and bare Exception, each carrying the str(e) message. -/
inductive PyErr where
  | valueError (msg : String)
  | typeError (msg : String)
  | exception (msg : String)
  deriving DecidableEq, Repr

/-- The message of an exception, which is what a Python format string
interpolating the exception renders. -/
def PyErr.msg : PyErr → String
  | .valueError m => m
  | .typeError m => m
  | .exception m => m

/-- Default model name of create_gemini_client. -/
def geminiDefaultModel : String := "gemini-2.5-flash-preview-05-20"

/-- Embeds create_gemini_client (src/src/llm_parser.py lines 39-70): the
API key is checked first and its absence raises a ValueError before
instructor.from_gemini is ever invoked; the model-name isinstance check
always passes here because the model argument is typed as a string; a
failure of the external construction is wrapped in a bare Exception with
the cause message appended. -/
def create_gemini_client (env : Env) (model : String) :
    Except PyErr Unit × Trace :=
  if env.GEMINI_API_KEY.isEmpty then
    (Except.error (PyErr.valueError "GEMINI_API_KEY is not configured"),
      Trace.zero)
  else
    match model, env.clientOutcome with
    | _, ClientOutcome.ok => (Except.ok (), ⟨1, 0, 0⟩)
    | _, ClientOutcome.raises m =>
        (Except.error (PyErr.exception ("Failed to create Gemini client: " ++ m)),
          ⟨1, 0, 0⟩)

/-- Fixed instruction text preceding the OCR text in the prompt
f-string.  The full instruction wording of the source is irrelevant to
every claim, so it is abbreviated to its opening sentence. -/
def menuPromptBefore : String :=
  "You are an expert at extracting structured information from restaurant menu text."

/-- Fixed instruction text following the OCR text in the prompt
f-string, abbreviated to its closing sentence. -/
def menuPromptAfter : String :=
  "Please extract this information. Be thorough but handle unclear text gracefully."

/-- Embeds create_menu_extraction_prompt (src/src/llm_parser.py lines
73-110): one string with the raw OCR text interpolated between fixed
instruction text. -/
def create_menu_extraction_prompt (ocr_text : String) : String :=
  menuPromptBefore ++ ocr_text ++ menuPromptAfter

/-- What a structurer call hands back on success: the plain empty
Python list from the short-circuit branch, or a validated Menu
instance. -/
inductive ParseResult where
  | emptyList
  | menu (m : Menu)
  deriving DecidableEq, Repr

/-- Embeds parse_menu_with_gemini (src/src/llm_parser.py lines
113-160).  Checks run in source order: falsy input returns the plain
empty list; non-string input raises ValueError; a non-Instructor client
raises ValueError; a missing API key raises ValueError; then the prompt
is built and the network call submitted, and inside the try block an
API exception, or the post-validation rejection of a non-Menu response,
is wrapped in a bare Exception whose message appends the cause. -/
def parse_menu_with_gemini (ocr_text : PyVal) (clientIsInstructor : Bool)
    (env : Env) : Except PyErr ParseResult × Trace :=
  if ¬ ocr_text.truthy then (Except.ok ParseResult.emptyList, Trace.zero)
  else
    match ocr_text with
    | PyVal.pyStr s =>
      if ¬ clientIsInstructor then
        (Except.error (PyErr.valueError
          "Client must be an instance of instructor.client.Instructor"),
          Trace.zero)
      else if env.GEMINI_API_KEY.isEmpty then
        (Except.error (PyErr.valueError "GEMINI_API_KEY is not configured"),
          Trace.zero)
      else
        let _prompt := create_menu_extraction_prompt s
        match env.apiOutcome with
        | ApiOutcome.returnsMenu m =>
            (Except.ok (ParseResult.menu m), ⟨0, 1, 1⟩)
        | ApiOutcome.returnsNonMenu =>
            (Except.error (PyErr.exception
              "Failed to call Gemini API: Invalid response from Gemini API"),
              ⟨0, 1, 1⟩)
        | ApiOutcome.raises m =>
            (Except.error (PyErr.exception ("Failed to call Gemini API: " ++ m)),
              ⟨0, 1, 1⟩)
    | _ =>
        (Except.error (PyErr.valueError "OCR text must be a string"), Trace.zero)

/-- Embeds extract_menu_from_ocr (src/src/llm_parser.py lines 163-194).
Falsy input returns the plain empty list; truthy non-string input raises
ValueError outside the try block; otherwise the client is created and
the parse performed inside a try block whose handler wraps any exception
in a bare Exception appending the cause message. -/
def extract_menu_from_ocr (ocr_text : PyVal) (env : Env) :
    Except PyErr ParseResult × Trace :=
  if ¬ ocr_text.truthy then (Except.ok ParseResult.emptyList, Trace.zero)
  else
    match ocr_text with
    | PyVal.pyStr s =>
      match create_gemini_client env geminiDefaultModel with
      | (Except.ok _, t1) =>
        match parse_menu_with_gemini (PyVal.pyStr s) true env with
        | (Except.ok r, t2) => (Except.ok r, t1.add t2)
        | (Except.error e, t2) =>
            (Except.error (PyErr.exception
              ("Failed to extract menu from OCR text: " ++ e.msg)), t1.add t2)
      | (Except.error e, t1) =>
          (Except.error (PyErr.exception
            ("Failed to extract menu from OCR text: " ++ e.msg)), t1)
    | _ =>
        (Except.error (PyErr.valueError "OCR text must be a string"), Trace.zero)

/-- A benign environment: key configured, client construction succeeds,
and the API returns an empty Menu instance. -/
def envOk : Env := ⟨"key", ClientOutcome.ok, ApiOutcome.returnsMenu ⟨[]⟩⟩

/-- C4 counterexample: a whitespace-only input string is truthy in
Python, so it is not short-circuited: the structurer constructs a client
and submits the prompt, contradicting the claim that no external call is
made for whitespace-only input. -/
theorem whitespace_input_calls_external :
    (extract_menu_from_ocr (PyVal.pyStr " ") envOk).2.fromGeminiCalls = 1 ∧
    (extract_menu_from_ocr (PyVal.pyStr " ") envOk).2.apiCalls = 1 := by
  exact ⟨rfl, rfl⟩

/-- C4 amended: only the empty input string short-circuits; it yields
the plain empty list with no client constructed, no prompt built and no
network call, in every environment. -/
theorem extract_menu_empty_string_short_circuit (env : Env) :
    extract_menu_from_ocr (PyVal.pyStr "") env
      = (Except.ok ParseResult.emptyList, Trace.zero) := rfl

/-- C5 counterexample: None is a non-string input, yet the structurer
returns the plain empty list instead of failing with a type-kind error,
because the emptiness check precedes the type check. -/
theorem none_input_returns_empty_list :
    extract_menu_from_ocr PyVal.pyNone envOk
      = (Except.ok ParseResult.emptyList, Trace.zero) := rfl

/-- C5 amended: every truthy non-string input fails with the ValueError
naming the string requirement, and does so before any client is
constructed (the trace stays zero). -/
theorem extract_menu_truthy_nonstring (v : PyVal) (env : Env)
    (ht : v.truthy = true) (hs : v.isStr = false) :
    extract_menu_from_ocr v env
      = (Except.error (PyErr.valueError "OCR text must be a string"),
          Trace.zero) := by
  cases v <;> simp_all [extract_menu_from_ocr, PyVal.truthy, PyVal.isStr]

/-- Witness for the amended C5 at the concrete truthy non-string 1. -/
theorem extract_menu_truthy_nonstring_witness :
    (PyVal.pyInt 1).truthy = true ∧ (PyVal.pyInt 1).isStr = false ∧
    extract_menu_from_ocr (PyVal.pyInt 1) envOk
      = (Except.error (PyErr.valueError "OCR text must be a string"),
          Trace.zero) :=
  ⟨rfl, rfl, extract_menu_truthy_nonstring (PyVal.pyInt 1) envOk rfl rfl⟩

/-- C6: with a non-empty input string and no configured API key, client
creation raises the configuration ValueError before
instructor.from_gemini runs, and the structurer call fails with that
configuration failure wrapped, with no client constructed, no prompt
built and no network call. -/
theorem extract_menu_missing_key (s : String) (co : ClientOutcome)
    (ao : ApiOutcome) (hs : s.isEmpty = false) :
    create_gemini_client ⟨"", co, ao⟩ geminiDefaultModel
      = (Except.error (PyErr.valueError "GEMINI_API_KEY is not configured"),
          Trace.zero) ∧
    extract_menu_from_ocr (PyVal.pyStr s) ⟨"", co, ao⟩
      = (Except.error (PyErr.exception
          "Failed to extract menu from OCR text: GEMINI_API_KEY is not configured"),
          Trace.zero) := by
  constructor
  · rfl
  · unfold extract_menu_from_ocr
    simp only [PyVal.truthy, hs, Bool.not_false, not_true, if_false]
    rfl

/-- Witness for C6 at a concrete non-empty OCR string. -/
theorem extract_menu_missing_key_witness :
    ("menu text".isEmpty = false) ∧
    extract_menu_from_ocr (PyVal.pyStr "menu text")
        ⟨"", ClientOutcome.ok, ApiOutcome.returnsNonMenu⟩
      = (Except.error (PyErr.exception
          "Failed to extract menu from OCR text: GEMINI_API_KEY is not configured"),
          Trace.zero) :=
  ⟨rfl,
    (extract_menu_missing_key "menu text" ClientOutcome.ok
      ApiOutcome.returnsNonMenu rfl).2⟩

/-- C7: on a truthy string input with a configured key, a failure of any
step — client construction, prompt submission, or post-validation of the
response — is re-raised as the generic extraction Exception whose
message appends the original cause, and a successful call returns
exactly the complete Menu instance produced by the API, never a partial
one. -/
theorem extract_menu_failure_wrapping (s : String) (env : Env)
    (hs : s.isEmpty = false) (hk : env.GEMINI_API_KEY.isEmpty = false) :
    (∀ m, env.clientOutcome = ClientOutcome.raises m →
      (extract_menu_from_ocr (PyVal.pyStr s) env).1
        = Except.error (PyErr.exception
            ("Failed to extract menu from OCR text: Failed to create Gemini client: "
              ++ m))) ∧
    (∀ m, env.clientOutcome = ClientOutcome.ok →
      env.apiOutcome = ApiOutcome.raises m →
      (extract_menu_from_ocr (PyVal.pyStr s) env).1
        = Except.error (PyErr.exception
            ("Failed to extract menu from OCR text: Failed to call Gemini API: "
              ++ m))) ∧
    (env.clientOutcome = ClientOutcome.ok →
      env.apiOutcome = ApiOutcome.returnsNonMenu →
      (extract_menu_from_ocr (PyVal.pyStr s) env).1
        = Except.error (PyErr.exception
            "Failed to extract menu from OCR text: Failed to call Gemini API: Invalid response from Gemini API")) ∧
    (∀ m, (extract_menu_from_ocr (PyVal.pyStr s) env).1
        = Except.ok (ParseResult.menu m) →
      env.apiOutcome = ApiOutcome.returnsMenu m) := by
  obtain ⟨k, co, ao⟩ := env
  cases co <;> cases ao <;>
    simp_all [extract_menu_from_ocr, parse_menu_with_gemini,
      create_gemini_client, PyVal.truthy, PyErr.msg, Trace.add] <;>
    (try rw [← String.append_assoc]) <;> (try rfl)

/-- Witness for C7: a concrete client-construction failure is wrapped
with its cause preserved in the message. -/
theorem extract_menu_failure_wrapping_witness :
    ("text".isEmpty = false) ∧ (("k" : String).isEmpty = false) ∧
    (extract_menu_from_ocr (PyVal.pyStr "text")
        ⟨"k", ClientOutcome.raises "boom", ApiOutcome.returnsNonMenu⟩).1
      = Except.error (PyErr.exception
          "Failed to extract menu from OCR text: Failed to create Gemini client: boom") :=
  ⟨rfl, rfl,
    (extract_menu_failure_wrapping "text"
      ⟨"k", ClientOutcome.raises "boom", ApiOutcome.returnsNonMenu⟩
      rfl rfl).1 "boom" rfl⟩

/-- C10: every falsy input — None, 0, False, the empty list, the empty
string — makes both structurer functions return the plain empty Python
list with no external effect, and that value is not an instance of the
Menu schema type. -/
theorem structurer_falsy_returns_plain_list (v : PyVal) (env : Env)
    (c : Bool) (h : v.truthy = false) :
    extract_menu_from_ocr v env
      = (Except.ok ParseResult.emptyList, Trace.zero) ∧
    parse_menu_with_gemini v c env
      = (Except.ok ParseResult.emptyList, Trace.zero) ∧
    (∀ m : Menu, ParseResult.emptyList ≠ ParseResult.menu m) := by
  refine ⟨?_, ?_, fun m h => by cases h⟩
  · unfold extract_menu_from_ocr
    simp [h]
  · unfold parse_menu_with_gemini
    simp [h]

/-- Witness for C10 at the concrete falsy non-string input None. -/
theorem structurer_falsy_returns_plain_list_witness :
    (PyVal.pyNone.truthy = false) ∧
    extract_menu_from_ocr PyVal.pyNone envOk
      = (Except.ok ParseResult.emptyList, Trace.zero) ∧
    parse_menu_with_gemini PyVal.pyNone true envOk
      = (Except.ok ParseResult.emptyList, Trace.zero) :=
  ⟨rfl,
    (structurer_falsy_returns_plain_list PyVal.pyNone envOk true rfl).1,
    (structurer_falsy_returns_plain_list PyVal.pyNone envOk true rfl).2.1⟩

/- ===================================================================
   OCR extractor — src/src/ocr_service.py
   =================================================================== -/

/-- Outcome of the pytesseract.image_to_string engine invocation, an
opaque external collaborator, sorted by the exception class that the
except chain of the caller distinguishes: returned text; a raised
pytesseract.TesseractError, a two-field class whose initializer takes a
status and a message; a raised TesseractNotFoundError for a missing
binary, which subclasses OSError and therefore none of the named except
clauses; a raised TypeError; a raised FileNotFoundError; or any other
exception. -/
inductive EngineOutcome where
  | ok (text : String)
  | tesseractError (status : Int) (msg : String)
  | tesseractNotFound (msg : String)
  | typeError (msg : String)
  | fileNotFound (msg : String)
  | unexpected (msg : String)
  deriving DecidableEq, Repr

/-- Input to extract_text_from_image: either a value that is not a PIL
Image object (carrying its Python type name for the error message) or an
image together with the outcome the engine produces on it. -/
inductive OcrInput where
  | notImage (typeName : String)
  | image (outcome : EngineOutcome)
  deriving DecidableEq, Repr

/-- Exceptions that escape extract_text_from_image, one constructor per
exception class that can leave the function.  The tesseractError
constructor is what the docstring of the source promises for an engine
failure; the function never actually produces it, because its
except-TesseractError handler constructs TesseractError with a single
argument and that construction itself raises TypeError. -/
inductive OcrErr where
  | typeError (msg : String)
  | tesseractError (status : Int) (msg : String)
  | fileNotFound (msg : String)
  | exception (msg : String)
  deriving DecidableEq, Repr

/-- Engine-kind errors among the escaping exceptions: a TesseractError
carrying the engine diagnosis, or a FileNotFoundError passed through
from the engine invocation. -/
def OcrErr.isEngineKind : OcrErr → Bool
  | .tesseractError _ _ => true
  | .fileNotFound _ => true
  | _ => false

/-- The message of the TypeError that Python raises when
pytesseract.TesseractError is constructed with a single argument: the
initializer requires the two positional arguments status and message.
The except-TesseractError handler of the source attempts exactly that
one-argument construction.  The quotes Python places around the missing
argument name are elided here. -/
def tesseractArityMsg : String :=
  "TesseractError.__init__ missing 1 required positional argument: message"

/-- Embeds extract_text_from_image (src/src/ocr_service.py lines
18-92) branch by branch of its except chain.  The isinstance failure,
and any TypeError from the try body, are re-raised by the except
TypeError branch with the Invalid input prefix.  A TesseractError from
the engine is caught by the except TesseractError branch, whose
re-raise constructs TesseractError with one argument; that construction
raises TypeError inside the handler, so the escaping exception is a
TypeError with the fixed arity message, the engine status and message
discarded.  A TesseractNotFoundError (missing binary) subclasses
OSError, matches no earlier clause and is wrapped by the except
Exception branch.  A FileNotFoundError is re-raised unchanged by its
bare raise.  Any other exception is wrapped in a bare Exception with
the cause appended.  Configuring the command path and the logging are
effect-free collaborator concerns and the lang, psm and custom_config
flags only shape the engine invocation, so they live behind the
EngineOutcome abstraction. -/
def extract_text_from_image : OcrInput → Except OcrErr String
  | OcrInput.notImage t =>
      Except.error (OcrErr.typeError
        ("Invalid input: Expected PIL Image object, got " ++ t))
  | OcrInput.image outcome =>
      match outcome with
      | EngineOutcome.ok s => Except.ok s
      | EngineOutcome.tesseractError _ _ =>
          Except.error (OcrErr.typeError tesseractArityMsg)
      | EngineOutcome.tesseractNotFound m =>
          Except.error (OcrErr.exception
            ("OCR processing failed with unexpected error: " ++ m))
      | EngineOutcome.typeError m =>
          Except.error (OcrErr.typeError ("Invalid input: " ++ m))
      | EngineOutcome.fileNotFound m =>
          Except.error (OcrErr.fileNotFound m)
      | EngineOutcome.unexpected m =>
          Except.error (OcrErr.exception
            ("OCR processing failed with unexpected error: " ++ m))

/-- C8 evaluated at its failing inputs: when the engine raises
TesseractError, the handler itself fails — its one-argument
TesseractError construction raises TypeError — so the caller receives a
type-kind error whose fixed message carries neither the engine status
nor the engine message; and a missing binary (TesseractNotFoundError,
an OSError) lands in the generic except-Exception wrap; so neither
engine failure escapes as an engine-kind error, against the claim and
the docstring of the source.  The non-image clause of the claim does
hold: a non-image input is rejected with a type-kind error. -/
theorem ocr_engine_failure_divergence :
    (∀ status m, extract_text_from_image
        (OcrInput.image (EngineOutcome.tesseractError status m))
      = Except.error (OcrErr.typeError tesseractArityMsg)) ∧
    (OcrErr.typeError tesseractArityMsg).isEngineKind = false ∧
    (∀ m, extract_text_from_image
        (OcrInput.image (EngineOutcome.tesseractNotFound m))
        = Except.error (OcrErr.exception
            ("OCR processing failed with unexpected error: " ++ m)) ∧
      (OcrErr.exception
        ("OCR processing failed with unexpected error: " ++ m)).isEngineKind
        = false) ∧
    (∀ t, extract_text_from_image (OcrInput.notImage t)
      = Except.error (OcrErr.typeError
          ("Invalid input: Expected PIL Image object, got " ++ t))) :=
  ⟨fun _ _ => rfl, rfl, fun _ => ⟨rfl, rfl⟩, fun _ => rfl⟩

end Lunch
